import Mathlib

/-!
# Verification of the simple-autodiff operation layer

Shallow embedding of `simple_autodiff/ops/tensor_op.py` and
`simple_autodiff/ops/maths.py`.

Modelling conventions:
* A numpy ndarray is modelled as `NDArray`: a shape (list of axis lengths)
  together with a flat row-major data list.  Float32 arithmetic is idealised
  as exact rational arithmetic; the claims proved here are structural
  identities between code paths that compute the same float expressions, so
  the idealisation is uniform on both sides.
* Python exceptions (`TypeError`, `AssertionError`) are modelled by `PyErr`
  through `Except`.
* The `Tensor` class and the `add_op_to_graph` registry live in files of the
  repository that are not part of the sources given (`tensor.py`,
  `autodiff.py`); they are modelled from the spec where needed, and marked so.
-/

/-- A numpy ndarray: shape plus flat row-major float data.  A well-formed
array has `data.length = shape.prod`. -/
structure NDArray where
  shape : List Nat
  data : List ℚ
deriving DecidableEq, Repr

/-- `ndarray.size`: total number of elements, the product of the axis
lengths. -/
def NDArray.size (a : NDArray) : Nat := a.shape.prod

/-- Well-formedness of an ndarray: the flat buffer has exactly
`shape.prod` elements. -/
def NDArray.wf (a : NDArray) : Prop := a.data.length = a.size

instance (a : NDArray) : Decidable a.wf := by unfold NDArray.wf; infer_instance

/-- Scaling an array by a scalar, elementwise (`arr * factor` in numpy). -/
def NDArray.scale (a : NDArray) (f : ℚ) : NDArray :=
  ⟨a.shape, a.data.map (· * f)⟩

/-- Python exceptions that the embedded code can raise. -/
inductive PyErr where
  | typeError
  | assertError
deriving DecidableEq, Repr

/-! ## Built-in operations (`simple_autodiff/ops/maths.py`)

Each `X_forward` embeds `X._forward` (taking the already-extracted raw data),
and each `X_backward` embeds `X._backward`.  Python asserts become
`Except.error .assertError`; `_backward` returns its tuple of gradients as a
`List NDArray`, one per input, in input order. -/

/-- `Add._forward`: elementwise sum, `assert` equal shapes; empty cache. -/
def Add_forward (t1 t2 : NDArray) : Except PyErr (NDArray × Unit) :=
  if t1.shape = t2.shape then
    .ok (⟨t1.shape, List.zipWith (· + ·) t1.data t2.data⟩, ())
  else
    .error .assertError

/-- `Add._backward`: both gradients are the upstream gradient unchanged. -/
def Add_backward (upstream : NDArray) : List NDArray :=
  [upstream, upstream]

/-- `Subtract._forward`: elementwise difference, `assert` equal shapes. -/
def Subtract_forward (t1 t2 : NDArray) : Except PyErr (NDArray × Unit) :=
  if t1.shape = t2.shape then
    .ok (⟨t1.shape, List.zipWith (· - ·) t1.data t2.data⟩, ())
  else
    .error .assertError

/-- `Subtract._backward`: `(upstream, -upstream)`. -/
def Subtract_backward (upstream : NDArray) : List NDArray :=
  [upstream, ⟨upstream.shape, upstream.data.map (fun x => -x)⟩]

/-- `Power._forward`: elementwise `tensor_data ** scalar_exponent`
(default exponent 2); the cache is the input data itself. -/
def Power_forward (t : NDArray) (scalar_exponent : ℤ := 2) :
    NDArray × NDArray :=
  (⟨t.shape, t.data.map (fun x => x ^ scalar_exponent)⟩, t)

/-- `Power._backward`:
`grad = scalar_exponent * tensor_data ** (scalar_exponent - 1)`, then
`grad * upstream_grad` elementwise. -/
def Power_backward (upstream : NDArray) (tensor_data : NDArray)
    (scalar_exponent : ℤ := 2) : List NDArray :=
  [⟨tensor_data.shape,
    List.zipWith (· * ·)
      (tensor_data.data.map
        (fun x => (scalar_exponent : ℚ) * x ^ (scalar_exponent - 1)))
      upstream.data⟩]

/-- Flat row-major product of an `m×k` and a `k×n` matrix. -/
def matmulData (m k n : Nat) (a b : List ℚ) : List ℚ :=
  (List.range (m * n)).map fun idx =>
    ((List.range k).map fun l =>
      a.getD (idx / n * k + l) 0 * b.getD (l * n + idx % n) 0).sum

/-- Flat data of the transpose of an `r×c` matrix. -/
def transposeData (r c : Nat) (d : List ℚ) : List ℚ :=
  (List.range (c * r)).map fun idx => d.getD (idx % r * c + idx / r) 0

/-- `ndarray.T` restricted to the matrix (2-D) case used by `MatMul`. -/
def NDArray.T (x : NDArray) : NDArray :=
  match x.shape with
  | [r, c] => ⟨[c, r], transposeData r c x.data⟩
  | _ => x

/-- `np.matmul` restricted to the matrix (2-D) case used by `MatMul`. -/
def npMatmul (x y : NDArray) : NDArray :=
  match x.shape, y.shape with
  | [m, k], [_, n] => ⟨[m, n], matmulData m k n x.data y.data⟩
  | _, _ => ⟨[], []⟩

/-- `MatMul._forward` on matrices:
`assert tensor_data_1.shape[-1] == tensor_data_2.shape[0]`, then
`np.matmul`; the cache is both input values. -/
def MatMul_forward (t1 t2 : NDArray) :
    Except PyErr (NDArray × (NDArray × NDArray)) :=
  match t1.shape, t2.shape with
  | [m, k], [k2, n] =>
    if k = k2 then
      .ok (⟨[m, n], matmulData m k n t1.data t2.data⟩, (t1, t2))
    else
      .error .assertError
  | _, _ => .error .assertError

/-- `MatMul._backward`:
`(np.matmul(upstream, t2.T), np.matmul(t1.T, upstream))`. -/
def MatMul_backward (upstream : NDArray) (cache : NDArray × NDArray) :
    List NDArray :=
  [npMatmul upstream cache.2.T, npMatmul cache.1.T upstream]

/-- `Sum._forward`: `np.sum(tensor_data)` (a 0-d scalar array); the cache is
the input shape.  Total: no precondition is asserted. -/
def Sum_forward (t : NDArray) : NDArray × List Nat :=
  (⟨[], [t.data.sum]⟩, t.shape)

/-- `Sum._backward`: `np.full(tensor_shape, upstream_grad)` — the upstream
scalar broadcast to the cached input shape. -/
def Sum_backward (upstream : ℚ) (tensor_shape : List Nat) : List NDArray :=
  [⟨tensor_shape, List.replicate tensor_shape.prod upstream⟩]

/-- `Mean._forward`: `assert tensor_data.size > 0`, output
`np.sum(tensor_data) * (1/size)`; the cache is `(shape, 1/size)`. -/
def Mean_forward (t : NDArray) :
    Except PyErr (NDArray × (List Nat × ℚ)) :=
  if 0 < t.size then
    .ok (⟨[], [t.data.sum * ((t.size : ℚ))⁻¹]⟩, (t.shape, ((t.size : ℚ))⁻¹))
  else
    .error .assertError

/-- `Mean._backward`: `np.full(tensor_shape, upstream_grad) * factor`. -/
def Mean_backward (upstream : ℚ) (cache : List Nat × ℚ) : List NDArray :=
  [⟨cache.1, (List.replicate cache.1.prod upstream).map (· * cache.2)⟩]

/-! ## The Op contract and invocation protocol
(`simple_autodiff/ops/tensor_op.py`) -/

/-- Modelled from the spec: a `Tensor` (from `simple_autodiff/tensor.py`,
not among the given sources) "wrapping a numeric array value plus an optional
accumulated gradient" and a display name; `TensorOp.forward` constructs one
as `Tensor(output_data, name=self.__class__.__name__)`, so its gradient is
initially absent. -/
structure Tensor where
  data : NDArray
  name : String
deriving DecidableEq, Repr

/-- A positional argument of an Op invocation: a `Tensor`, or a plain Python
int or float (the branch of `TensorOp.forward` accepting raw ints/floats is
commented out in the source, so these are rejected). -/
inductive PyInput where
  | tensor (t : Tensor)
  | intVal (n : ℤ)
  | floatVal (q : ℚ)
deriving DecidableEq, Repr

/-- `isinstance(arg, Tensor)`. -/
def PyInput.isTensor : PyInput → Bool
  | .tensor _ => true
  | _ => false

/-- The per-op forward cache, an untyped payload in Python: `()` for
Add/Subtract, an array for Power, a pair of arrays for MatMul, a shape for
Sum, a shape–factor pair for Mean. -/
inductive Cache where
  | unit
  | arr (a : NDArray)
  | pair (a b : NDArray)
  | shapeOf (s : List Nat)
  | shapeFactor (s : List Nat) (f : ℚ)
deriving DecidableEq, Repr

/-- The extraction loop of `TensorOp.forward`: for each positional argument,
`tensor.data.copy().astype(np.float32)` if it is a `Tensor` (the copy/cast is
the identity in the exact-arithmetic model), otherwise
`raise TypeError(f"Illegal input type: ...")`.  The loop raises at the first
non-Tensor argument, before `_forward` is ever invoked. -/
def extractData : List PyInput → Except PyErr (List NDArray)
  | [] => .ok []
  | .tensor t :: rest => (extractData rest).map (fun ds => t.data :: ds)
  | _ :: _ => .error .typeError

/-- `TensorOp.forward`: extract raw data from the inputs, run the
subclass's `_forward` (passed here as `fwd`, with its keyword arguments
already applied), and wrap the output in a new `Tensor` named after the op
class.  The cache is stored on the op instance (returned here alongside). -/
def TensorOp.forward (fwd : List NDArray → Except PyErr (NDArray × Cache))
    (opName : String) (inputs : List PyInput) :
    Except PyErr (Tensor × Cache) := do
  let ds ← extractData inputs
  let (output_data, cache) ← fwd ds
  return (⟨output_data, opName⟩, cache)

/-- One record of the computation graph: the producing op instance
(identified by its unique id), its Tensor-typed positional inputs in
supplied order, and its single output tensor. -/
structure GraphEntry where
  opId : Nat
  inputs : List Tensor
  output : Tensor
deriving DecidableEq, Repr

/-- The process-wide mutable state touched by an Op invocation: the class
counter `TensorOp.op_count` and the computation graph owned by
`simple_autodiff/autodiff.py`. -/
structure AutodiffState where
  opCount : Nat
  graph : List GraphEntry
deriving DecidableEq, Repr

/-- Modelled from the spec: `add_op_to_graph` lives in
`simple_autodiff/autodiff.py`, which is not among the given sources.  Spec:
"Register the new (Op instance, input Tensors, output Tensor) triple into
the Computation Graph"; "Entries are appended on every Op construction;
never removed by the core". -/
def add_op_to_graph (opId : Nat) (input_tensors : List Tensor)
    (output_tensor : Tensor) (graph : List GraphEntry) : List GraphEntry :=
  graph ++ [⟨opId, input_tensors, output_tensor⟩]

/-- `[t for t in input_tensors if isinstance(t, Tensor)]`. -/
def tensorArgs (inputs : List PyInput) : List Tensor :=
  inputs.filterMap fun i =>
    match i with
    | .tensor t => some t
    | _ => none

/-- `TensorOp.__new__`: allocate the instance and run `cls.__init__`, which
calls `get_unique_id` and increments the class-wide counter
`TensorOp.op_count`; then run `forward`; on success filter the Tensor-typed
positional arguments, check the output is a `Tensor` (always true here:
`forward` wraps its result in one), register the triple in the graph and
return the output tensor.  If `forward` raises, the exception propagates —
but the counter increment has already happened. -/
def TensorOp.new (fwd : List NDArray → Except PyErr (NDArray × Cache))
    (opName : String) (inputs : List PyInput) (st : AutodiffState) :
    AutodiffState × Except PyErr Tensor :=
  let newCount := st.opCount + 1
  match TensorOp.forward fwd opName inputs with
  | .error e => ({ st with opCount := newCount }, .error e)
  | .ok (output_tensor, _) =>
    (⟨newCount,
      add_op_to_graph newCount (tensorArgs inputs) output_tensor st.graph⟩,
     .ok output_tensor)

/-- A Python value returned by a subclass's `_backward`: a tuple of
gradient arrays, a bare array, or anything else (e.g. `None`). -/
inductive PyGrads where
  | tuple (xs : List NDArray)
  | arrVal (a : NDArray)
  | noneVal
deriving DecidableEq, Repr

/-- `TensorOp.backward`: call the subclass's `_backward` (here `bwd`, with
stored keyword arguments already applied) on the upstream gradient and the
stored cache; `raise TypeError` unless the result `isinstance(..., tuple)`;
otherwise return the tuple unchanged.  The tuple's length is not inspected. -/
def TensorOp.backward (bwd : NDArray → Cache → PyGrads) (cache : Cache)
    (upstream_grads : NDArray) : Except PyErr PyGrads :=
  match bwd upstream_grads cache with
  | .tuple xs => .ok (.tuple xs)
  | _ => .error .typeError

/-- The spec's stated error condition for `TensorOp.backward` (claim C7),
written from the spec's words, to be compared with the code: a type error
is raised when the gradient computation "does not return a fixed-size
ordered sequence matching the input count". -/
def specBackwardRaises (g : PyGrads) (inputCount : Nat) : Bool :=
  match g with
  | .tuple xs => xs.length ≠ inputCount
  | _ => true

/-! ### The built-in `_forward`s in the calling convention of
`TensorOp.forward`: a list of extracted data arrays (a wrong number of
positional arguments is a Python `TypeError` at the call), producing the
generic `Cache` payload. -/

/-- `Add._forward` as invoked by `TensorOp.forward`. -/
def Add_forwardArgs : List NDArray → Except PyErr (NDArray × Cache)
  | [t1, t2] => (Add_forward t1 t2).map fun p => (p.1, Cache.unit)
  | _ => .error .typeError

/-- `Subtract._forward` as invoked by `TensorOp.forward`. -/
def Subtract_forwardArgs : List NDArray → Except PyErr (NDArray × Cache)
  | [t1, t2] => (Subtract_forward t1 t2).map fun p => (p.1, Cache.unit)
  | _ => .error .typeError

/-- `Power._forward` (with its default keyword argument) as invoked by
`TensorOp.forward`. -/
def Power_forwardArgs : List NDArray → Except PyErr (NDArray × Cache)
  | [t] => .ok ((Power_forward t).1, Cache.arr (Power_forward t).2)
  | _ => .error .typeError

/-- `MatMul._forward` as invoked by `TensorOp.forward`. -/
def MatMul_forwardArgs : List NDArray → Except PyErr (NDArray × Cache)
  | [t1, t2] => (MatMul_forward t1 t2).map fun p => (p.1, Cache.pair p.2.1 p.2.2)
  | _ => .error .typeError

/-- `Sum._forward` as invoked by `TensorOp.forward`. -/
def Sum_forwardArgs : List NDArray → Except PyErr (NDArray × Cache)
  | [t] => .ok ((Sum_forward t).1, Cache.shapeOf (Sum_forward t).2)
  | _ => .error .typeError

/-- `Mean._forward` as invoked by `TensorOp.forward`. -/
def Mean_forwardArgs : List NDArray → Except PyErr (NDArray × Cache)
  | [t] => (Mean_forward t).map fun p => (p.1, Cache.shapeFactor p.2.1 p.2.2)
  | _ => .error .typeError

/-! ## Supporting lemmas -/

/-- Squaring by integer exponent is elementwise self-multiplication. -/
theorem map_zpow_two_eq_zipWith_mul (l : List ℚ) :
    l.map (fun x => x ^ (2 : ℤ)) = List.zipWith (· * ·) l l := by
  induction l with
  | nil => rfl
  | cons x xs ih =>
    simp only [List.map_cons, List.zipWith_cons_cons, ih]
    congr 1
    rw [show (2 : ℤ) = ((2 : Nat) : ℤ) from rfl, zpow_natCast, sq]

/-- The extraction loop fails with a `TypeError` whenever some positional
argument is not a `Tensor`. -/
theorem extractData_error_of_nonTensor :
    ∀ (inputs : List PyInput), (∃ i ∈ inputs, i.isTensor = false) →
      extractData inputs = .error .typeError
  | [], h => by simp at h
  | .tensor t :: rest, h => by
    have hrest : ∃ i ∈ rest, i.isTensor = false := by
      rcases h with ⟨i, hi, hni⟩
      rcases List.mem_cons.mp hi with h1 | h2
      · subst h1; simp [PyInput.isTensor] at hni
      · exact ⟨i, h2, hni⟩
    simp [extractData, extractData_error_of_nonTensor rest hrest, Except.map]
  | .intVal _ :: _, _ => rfl
  | .floatVal _ :: _, _ => rfl

/-! ## Claim theorems -/

/-- C2: for arrays `A`, `B` of equal shape, `Add`'s forward value is the
elementwise sum `A + B` (same shape, data summed pointwise), and for any
upstream gradient `Add`'s backward returns the upstream gradient unchanged
as the gradient with respect to each of the two inputs. -/
theorem add_forward_sum_backward_identity (a b upstream : NDArray)
    (h : a.shape = b.shape) :
    Add_forward a b
      = .ok (⟨a.shape, List.zipWith (· + ·) a.data b.data⟩, ()) ∧
    Add_backward upstream = [upstream, upstream] := by
  refine ⟨?_, rfl⟩
  simp [Add_forward, h]

/-- Witness for C2 at concrete arrays. -/
theorem add_forward_sum_backward_identity_witness :
    (NDArray.mk [2] [1, 2]).shape = (NDArray.mk [2] [3, 4]).shape ∧
    (Add_forward ⟨[2], [1, 2]⟩ ⟨[2], [3, 4]⟩
        = .ok (⟨[2], List.zipWith (· + ·) [1, 2] [3, 4]⟩, ()) ∧
      Add_backward ⟨[2], [10, 20]⟩ = [⟨[2], [10, 20]⟩, ⟨[2], [10, 20]⟩]) :=
  ⟨rfl, add_forward_sum_backward_identity ⟨[2], [1, 2]⟩ ⟨[2], [3, 4]⟩
    ⟨[2], [10, 20]⟩ rfl⟩

/-- C3: `Power` with the default exponent 2 computes the elementwise
square `A * A`; the cache is the input value itself; and for any exponent
`e` and upstream gradient, the backward pass computes the single gradient
`e * A ^ (e - 1) * upstream` elementwise from the cached input. -/
theorem power_default_square_backward_formula (a upstream : NDArray)
    (e : ℤ) :
    (Power_forward a).1 = ⟨a.shape, List.zipWith (· * ·) a.data a.data⟩ ∧
    (Power_forward a e).2 = a ∧
    Power_backward upstream (Power_forward a e).2 e
      = [⟨a.shape,
          List.zipWith (fun x u => (e : ℚ) * x ^ (e - 1) * u)
            a.data upstream.data⟩] := by
  refine ⟨?_, rfl, ?_⟩
  · simp only [Power_forward, map_zpow_two_eq_zipWith_mul]
  · simp [Power_backward, Power_forward, List.zipWith_map_left]

/-- C5: for a non-empty array `A` and any upstream gradient, the gradient
produced by `Mean`'s backward (from the cache produced by its forward pass
on `A`) equals the gradient produced by `Sum`'s backward scaled by
`1 / A.size`, and both gradients have exactly the shape (and element count)
of `A`. -/
theorem mean_sum_grad_duality (a : NDArray) (upstream : ℚ)
    (h : 0 < a.size) :
    Mean_forward a
      = .ok (⟨[], [a.data.sum * ((a.size : ℚ))⁻¹]⟩,
             (a.shape, ((a.size : ℚ))⁻¹)) ∧
    Mean_backward upstream (a.shape, ((a.size : ℚ))⁻¹)
      = (Sum_backward upstream (Sum_forward a).2).map
          (fun g => g.scale ((a.size : ℚ))⁻¹) ∧
    (∀ g ∈ Mean_backward upstream (a.shape, ((a.size : ℚ))⁻¹),
      g.shape = a.shape ∧ g.data.length = a.size) ∧
    (∀ g ∈ Sum_backward upstream (Sum_forward a).2,
      g.shape = a.shape ∧ g.data.length = a.size) := by
  refine ⟨by simp [Mean_forward, h], rfl, ?_, ?_⟩
  · intro g hg
    simp only [Mean_backward, List.mem_singleton] at hg
    subst hg
    simp [NDArray.size]
  · intro g hg
    simp only [Sum_backward, Sum_forward, List.mem_singleton] at hg
    subst hg
    simp [NDArray.size]

/-- Witness for C5 at a concrete 3-element array. -/
theorem mean_sum_grad_duality_witness :
    0 < (NDArray.mk [3] [1, 2, 3]).size ∧
    (Mean_forward ⟨[3], [1, 2, 3]⟩
        = .ok (⟨[], [([1, 2, 3] : List ℚ).sum * (((3 : Nat) : ℚ))⁻¹]⟩,
               ([3], (((3 : Nat) : ℚ))⁻¹)) ∧
      Mean_backward 5 ([3], (((3 : Nat) : ℚ))⁻¹)
        = (Sum_backward 5 (Sum_forward ⟨[3], [1, 2, 3]⟩).2).map
            (fun g => g.scale (((3 : Nat) : ℚ))⁻¹) ∧
      (∀ g ∈ Mean_backward 5 ([3], (((3 : Nat) : ℚ))⁻¹),
        g.shape = [3] ∧ g.data.length = 3) ∧
      (∀ g ∈ Sum_backward 5 (Sum_forward ⟨[3], [1, 2, 3]⟩).2,
        g.shape = [3] ∧ g.data.length = 3)) :=
  ⟨by decide, mean_sum_grad_duality ⟨[3], [1, 2, 3]⟩ 5 (by decide)⟩

/-- C10: `Sum`'s forward and backward are total: the forward pass asserts
nothing and evaluates on every array to the scalar sum of the data with the
input shape as cache; on a well-formed array with zero elements the forward
value is the scalar `0`, and the backward gradient is the empty array of
exactly the input's shape — whereas `Mean` rejects the same array. -/
theorem sum_total_on_empty (a : NDArray) (upstream : ℚ)
    (hwf : a.wf) (h0 : a.size = 0) :
    (∀ b : NDArray, Sum_forward b = (⟨[], [b.data.sum]⟩, b.shape)) ∧
    (Sum_forward a).1 = ⟨[], [0]⟩ ∧
    Sum_backward upstream (Sum_forward a).2 = [⟨a.shape, []⟩] ∧
    (∀ g ∈ Sum_backward upstream (Sum_forward a).2,
      g.shape = a.shape ∧ g.data.length = a.size) ∧
    Mean_forward a = .error .assertError := by
  have hdata : a.data = [] := by
    have : a.data.length = 0 := by rw [hwf, h0]
    exact List.length_eq_zero.mp this
  have hprod : a.shape.prod = 0 := h0
  refine ⟨fun b => rfl, ?_, ?_, ?_, ?_⟩
  · simp [Sum_forward, hdata]
  · simp [Sum_backward, Sum_forward, hprod]
  · intro g hg
    simp only [Sum_backward, Sum_forward, List.mem_singleton] at hg
    subst hg
    simp [NDArray.size, hprod, h0]
  · simp [Mean_forward, h0]

/-- Witness for C10 at a concrete empty array of shape `(0, 2)`. -/
theorem sum_total_on_empty_witness :
    (NDArray.mk [0, 2] []).wf ∧ (NDArray.mk [0, 2] []).size = 0 ∧
    ((∀ b : NDArray, Sum_forward b = (⟨[], [b.data.sum]⟩, b.shape)) ∧
      (Sum_forward ⟨[0, 2], []⟩).1 = ⟨[], [0]⟩ ∧
      Sum_backward 7 (Sum_forward ⟨[0, 2], []⟩).2 = [⟨[0, 2], []⟩] ∧
      (∀ g ∈ Sum_backward 7 (Sum_forward ⟨[0, 2], []⟩).2,
        g.shape = [0, 2] ∧ g.data.length = (NDArray.mk [0, 2] []).size) ∧
      Mean_forward ⟨[0, 2], []⟩ = .error .assertError) :=
  ⟨by decide, by decide, sum_total_on_empty ⟨[0, 2], []⟩ 7 (by decide) (by decide)⟩

/-- C4: for `A` of shape `(m,k)` and `B` of shape `(k,n)`, `MatMul`'s
forward value has shape `(m,n)` (with `m*n` entries) and caches both
inputs; for an upstream gradient of shape `(m,n)` the backward pass returns
exactly `(upstream · Bᵀ, Aᵀ · upstream)`, whose shapes are `(m,k)` and
`(k,n)` respectively. -/
theorem matmul_shape_contract (a b upstream : NDArray) (m k n : Nat)
    (ha : a.shape = [m, k]) (hb : b.shape = [k, n])
    (hu : upstream.shape = [m, n]) :
    (∃ out, MatMul_forward a b = .ok (out, (a, b)) ∧
      out.shape = [m, n] ∧ out.data.length = m * n) ∧
    MatMul_backward upstream (a, b)
      = [npMatmul upstream b.T, npMatmul a.T upstream] ∧
    (npMatmul upstream b.T).shape = [m, k] ∧
    (npMatmul upstream b.T).data.length = m * k ∧
    (npMatmul a.T upstream).shape = [k, n] ∧
    (npMatmul a.T upstream).data.length = k * n := by
  refine ⟨⟨⟨[m, n], matmulData m k n a.data b.data⟩, ?_, rfl, ?_⟩,
    rfl, ?_, ?_, ?_, ?_⟩
  · simp [MatMul_forward, ha, hb]
  · simp [matmulData]
  all_goals simp [npMatmul, NDArray.T, ha, hb, hu, matmulData]

/-- Witness for C4 at concrete `2×3` and `3×2` matrices. -/
theorem matmul_shape_contract_witness :
    (NDArray.mk [2, 3] [1, 2, 3, 4, 5, 6]).shape = [2, 3] ∧
    (NDArray.mk [3, 2] [7, 8, 9, 10, 11, 12]).shape = [3, 2] ∧
    (NDArray.mk [2, 2] [1, 0, 0, 1]).shape = [2, 2] ∧
    ((∃ out, MatMul_forward ⟨[2, 3], [1, 2, 3, 4, 5, 6]⟩
          ⟨[3, 2], [7, 8, 9, 10, 11, 12]⟩
        = .ok (out, (⟨[2, 3], [1, 2, 3, 4, 5, 6]⟩,
                     ⟨[3, 2], [7, 8, 9, 10, 11, 12]⟩)) ∧
      out.shape = [2, 2] ∧ out.data.length = 2 * 2) ∧
    MatMul_backward ⟨[2, 2], [1, 0, 0, 1]⟩
        (⟨[2, 3], [1, 2, 3, 4, 5, 6]⟩, ⟨[3, 2], [7, 8, 9, 10, 11, 12]⟩)
      = [npMatmul ⟨[2, 2], [1, 0, 0, 1]⟩ (NDArray.mk [3, 2] [7, 8, 9, 10, 11, 12]).T,
         npMatmul (NDArray.mk [2, 3] [1, 2, 3, 4, 5, 6]).T ⟨[2, 2], [1, 0, 0, 1]⟩] ∧
    (npMatmul ⟨[2, 2], [1, 0, 0, 1]⟩
        (NDArray.mk [3, 2] [7, 8, 9, 10, 11, 12]).T).shape = [2, 3] ∧
    (npMatmul ⟨[2, 2], [1, 0, 0, 1]⟩
        (NDArray.mk [3, 2] [7, 8, 9, 10, 11, 12]).T).data.length = 2 * 3 ∧
    (npMatmul (NDArray.mk [2, 3] [1, 2, 3, 4, 5, 6]).T
        ⟨[2, 2], [1, 0, 0, 1]⟩).shape = [3, 2] ∧
    (npMatmul (NDArray.mk [2, 3] [1, 2, 3, 4, 5, 6]).T
        ⟨[2, 2], [1, 0, 0, 1]⟩).data.length = 3 * 2) :=
  ⟨rfl, rfl, rfl,
    matmul_shape_contract ⟨[2, 3], [1, 2, 3, 4, 5, 6]⟩
      ⟨[3, 2], [7, 8, 9, 10, 11, 12]⟩ ⟨[2, 2], [1, 0, 0, 1]⟩
      2 3 2 rfl rfl rfl⟩

/-- C1: when the forward computation succeeds (the inputs extract to raw
data `ds` and `_forward` yields `out`), the value of the whole invocation
is the new `Tensor` wrapping `out` — not the op instance — and exactly one
entry, the (op id, Tensor-typed positional inputs in supplied order, output
tensor) triple, is appended to the computation graph in the returned state. -/
theorem tensorOp_new_registers_once
    (fwd : List NDArray → Except PyErr (NDArray × Cache))
    (opName : String) (inputs : List PyInput) (st : AutodiffState)
    (ds : List NDArray) (out : NDArray) (c : Cache)
    (hext : extractData inputs = .ok ds) (hfwd : fwd ds = .ok (out, c)) :
    TensorOp.new fwd opName inputs st
      = (⟨st.opCount + 1,
          st.graph
            ++ [⟨st.opCount + 1, tensorArgs inputs, ⟨out, opName⟩⟩]⟩,
         .ok ⟨out, opName⟩) := by
  simp [TensorOp.new, TensorOp.forward, hext, hfwd, add_op_to_graph,
    Except.bind, Except.map, bind, Functor.map, pure, Except.pure]

/-- Witness for C1: a concrete `Add` invocation on two shape-`[2]` tensors
from a state with two prior ops and an empty graph. -/
theorem tensorOp_new_registers_once_witness :
    extractData [.tensor ⟨⟨[2], [1, 2]⟩, "x"⟩, .tensor ⟨⟨[2], [3, 4]⟩, "y"⟩]
      = .ok [⟨[2], [1, 2]⟩, ⟨[2], [3, 4]⟩] ∧
    Add_forwardArgs [⟨[2], [1, 2]⟩, ⟨[2], [3, 4]⟩]
      = .ok (⟨[2], [4, 6]⟩, Cache.unit) ∧
    TensorOp.new Add_forwardArgs "Add"
        [.tensor ⟨⟨[2], [1, 2]⟩, "x"⟩, .tensor ⟨⟨[2], [3, 4]⟩, "y"⟩]
        ⟨2, []⟩
      = (⟨2 + 1,
          [] ++ [⟨2 + 1,
            tensorArgs [.tensor ⟨⟨[2], [1, 2]⟩, "x"⟩,
                        .tensor ⟨⟨[2], [3, 4]⟩, "y"⟩],
            ⟨⟨[2], [4, 6]⟩, "Add"⟩⟩]⟩,
         .ok ⟨⟨[2], [4, 6]⟩, "Add"⟩) :=
  ⟨rfl, by norm_num [Add_forwardArgs, Add_forward, Except.map],
    tensorOp_new_registers_once Add_forwardArgs "Add"
      [.tensor ⟨⟨[2], [1, 2]⟩, "x"⟩, .tensor ⟨⟨[2], [3, 4]⟩, "y"⟩]
      ⟨2, []⟩ [⟨[2], [1, 2]⟩, ⟨[2], [3, 4]⟩] ⟨[2], [4, 6]⟩ Cache.unit
      rfl (by norm_num [Add_forwardArgs, Add_forward, Except.map])⟩

/-- C6 (counterexample to the claim as stated): invoking `Add` on tensors
of shapes `[2]` and `[3]` from the fresh state fails the shape assert
during the forward pass and registers nothing in the graph — but the
process-wide class counter `TensorOp.op_count` has already been
incremented by `cls.__init__`, which `__new__` runs before the forward
computation.  So "no process-wide mutable state changes" is false. -/
theorem precondition_violation_counter_bumped :
    (TensorOp.new Add_forwardArgs "Add"
        [.tensor ⟨⟨[2], [1, 2]⟩, "x"⟩, .tensor ⟨⟨[3], [1, 2, 3]⟩, "y"⟩]
        ⟨0, []⟩).2 = .error .assertError ∧
    (TensorOp.new Add_forwardArgs "Add"
        [.tensor ⟨⟨[2], [1, 2]⟩, "x"⟩, .tensor ⟨⟨[3], [1, 2, 3]⟩, "y"⟩]
        ⟨0, []⟩).1.graph = [] ∧
    (TensorOp.new Add_forwardArgs "Add"
        [.tensor ⟨⟨[2], [1, 2]⟩, "x"⟩, .tensor ⟨⟨[3], [1, 2, 3]⟩, "y"⟩]
        ⟨0, []⟩).1.opCount ≠ (AutodiffState.mk 0 []).opCount :=
  ⟨rfl, rfl, by decide⟩

/-- C6 (amended): whenever a built-in operation's forward precondition is
violated — `Add`/`Subtract` on unequal shapes, `MatMul` on mismatched inner
dimensions, `Mean` on an empty tensor — the invocation fails with the
assertion error during the forward computation, the op is never registered
and the graph is unchanged; but the process-wide op counter has already
been incremented by the failed invocation. -/
theorem precondition_violation_state_effect (st : AutodiffState)
    (nm : String) (t1 t2 t3 ta tb : Tensor) (m k k2 n : Nat)
    (hab : t1.data.shape ≠ t2.data.shape)
    (h3 : t3.data.size = 0)
    (hma : ta.data.shape = [m, k]) (hmb : tb.data.shape = [k2, n])
    (hk : k ≠ k2) :
    TensorOp.new Add_forwardArgs nm [.tensor t1, .tensor t2] st
      = ({ st with opCount := st.opCount + 1 }, .error .assertError) ∧
    TensorOp.new Subtract_forwardArgs nm [.tensor t1, .tensor t2] st
      = ({ st with opCount := st.opCount + 1 }, .error .assertError) ∧
    TensorOp.new MatMul_forwardArgs nm [.tensor ta, .tensor tb] st
      = ({ st with opCount := st.opCount + 1 }, .error .assertError) ∧
    TensorOp.new Mean_forwardArgs nm [.tensor t3] st
      = ({ st with opCount := st.opCount + 1 }, .error .assertError) := by
  refine ⟨?_, ?_, ?_, ?_⟩
  · simp [TensorOp.new, TensorOp.forward, extractData, Add_forwardArgs,
      Add_forward, hab, Except.bind, Except.map, bind]
  · simp [TensorOp.new, TensorOp.forward, extractData, Subtract_forwardArgs,
      Subtract_forward, hab, Except.bind, Except.map, bind]
  · simp [TensorOp.new, TensorOp.forward, extractData, MatMul_forwardArgs,
      MatMul_forward, hma, hmb, hk, Except.bind, Except.map, bind]
  · simp [TensorOp.new, TensorOp.forward, extractData, Mean_forwardArgs,
      Mean_forward, h3, Except.bind, Except.map, bind]

/-- Witness for the amended C6 at concrete tensors and a concrete state. -/
theorem precondition_violation_state_effect_witness :
    (Tensor.mk ⟨[2], [1, 2]⟩ "x").data.shape
        ≠ (Tensor.mk ⟨[3], [1, 2, 3]⟩ "y").data.shape ∧
    (Tensor.mk ⟨[0], []⟩ "z").data.size = 0 ∧
    (Tensor.mk ⟨[1, 2], [1, 2]⟩ "a").data.shape = [1, 2] ∧
    (Tensor.mk ⟨[3, 1], [1, 2, 3]⟩ "b").data.shape = [3, 1] ∧
    (2 : Nat) ≠ 3 ∧
    (TensorOp.new Add_forwardArgs "Op"
        [.tensor ⟨⟨[2], [1, 2]⟩, "x"⟩, .tensor ⟨⟨[3], [1, 2, 3]⟩, "y"⟩]
        ⟨4, []⟩
      = ({ AutodiffState.mk 4 [] with opCount := 4 + 1 },
         .error .assertError) ∧
    TensorOp.new Subtract_forwardArgs "Op"
        [.tensor ⟨⟨[2], [1, 2]⟩, "x"⟩, .tensor ⟨⟨[3], [1, 2, 3]⟩, "y"⟩]
        ⟨4, []⟩
      = ({ AutodiffState.mk 4 [] with opCount := 4 + 1 },
         .error .assertError) ∧
    TensorOp.new MatMul_forwardArgs "Op"
        [.tensor ⟨⟨[1, 2], [1, 2]⟩, "a"⟩, .tensor ⟨⟨[3, 1], [1, 2, 3]⟩, "b"⟩]
        ⟨4, []⟩
      = ({ AutodiffState.mk 4 [] with opCount := 4 + 1 },
         .error .assertError) ∧
    TensorOp.new Mean_forwardArgs "Op" [.tensor ⟨⟨[0], []⟩, "z"⟩] ⟨4, []⟩
      = ({ AutodiffState.mk 4 [] with opCount := 4 + 1 },
         .error .assertError)) :=
  ⟨by decide, by decide, rfl, rfl, by decide,
    precondition_violation_state_effect ⟨4, []⟩ "Op"
      ⟨⟨[2], [1, 2]⟩, "x"⟩ ⟨⟨[3], [1, 2, 3]⟩, "y"⟩ ⟨⟨[0], []⟩, "z"⟩
      ⟨⟨[1, 2], [1, 2]⟩, "a"⟩ ⟨⟨[3, 1], [1, 2, 3]⟩, "b"⟩
      1 2 3 1 (by decide) (by decide) rfl rfl (by decide)⟩

/-- C7 (counterexample to the claim as stated): a hypothetical subclass
permitted by the open Op contract whose gradient computation returns a
1-tuple for a two-input forward pass.  `TensorOp.backward` only checks
`isinstance(grads, tuple)`, so it accepts this value and returns it
unchanged, although the spec condition "not a fixed-size ordered sequence
matching the input count" demands a type error for an input count of 2. -/
theorem backward_no_arity_check_counterexample :
    TensorOp.backward (fun _ _ => PyGrads.tuple [⟨[1], [0]⟩]) .unit ⟨[], [1]⟩
      = .ok (PyGrads.tuple [⟨[1], [0]⟩]) ∧
    specBackwardRaises ((fun _ _ => PyGrads.tuple [⟨[1], [0]⟩])
      (NDArray.mk [] [1]) Cache.unit) 2 = true :=
  ⟨rfl, rfl⟩

/-- C7 (amended): `TensorOp.backward` raises a type error if and only if
the subclass's gradient computation does not return a tuple — the tuple's
length is never compared against the number of forward inputs — and
otherwise the tuple of gradients is returned unchanged. -/
theorem backward_tuple_only_check (bwd : NDArray → Cache → PyGrads)
    (cache : Cache) (upstream : NDArray) :
    ((∃ e, TensorOp.backward bwd cache upstream = .error e)
        ↔ ∀ xs, bwd upstream cache ≠ PyGrads.tuple xs) ∧
    (∀ xs, bwd upstream cache = PyGrads.tuple xs →
      TensorOp.backward bwd cache upstream = .ok (PyGrads.tuple xs)) := by
  cases hg : bwd upstream cache <;> simp [TensorOp.backward, hg]

/-- Witness for the amended C7 at a concrete (Add-like) backward. -/
theorem backward_tuple_only_check_witness :
    TensorOp.backward (fun u _ => PyGrads.tuple [u, u]) .unit ⟨[2], [1, 2]⟩
      = .ok (PyGrads.tuple [⟨[2], [1, 2]⟩, ⟨[2], [1, 2]⟩]) :=
  (backward_tuple_only_check (fun u _ => PyGrads.tuple [u, u]) .unit
    ⟨[2], [1, 2]⟩).2 [⟨[2], [1, 2]⟩, ⟨[2], [1, 2]⟩] rfl

/-- C8: if any positional argument of an Op invocation is not a `Tensor`
(plain ints and floats included), the invocation raises a type error during
argument extraction — uniformly in the subclass's `_forward`, which is
never consulted — and the graph is left unchanged (only the class counter,
bumped before `forward` runs, moves). -/
theorem nonTensor_positional_arg_type_error
    (fwd : List NDArray → Except PyErr (NDArray × Cache))
    (opName : String) (inputs : List PyInput) (st : AutodiffState)
    (h : ∃ i ∈ inputs, i.isTensor = false) :
    TensorOp.forward fwd opName inputs = .error .typeError ∧
    TensorOp.new fwd opName inputs st
      = ({ st with opCount := st.opCount + 1 }, .error .typeError) := by
  have he := extractData_error_of_nonTensor inputs h
  constructor
  · simp [TensorOp.forward, he, Except.bind, bind]
  · simp [TensorOp.new, TensorOp.forward, he, Except.bind, bind]

/-- Witness for C8: a plain int passed positionally to `Add`. -/
theorem nonTensor_positional_arg_type_error_witness :
    (∃ i ∈ [PyInput.tensor ⟨⟨[1], [1]⟩, "t"⟩, PyInput.intVal 3],
      i.isTensor = false) ∧
    (TensorOp.forward Add_forwardArgs "Add"
        [PyInput.tensor ⟨⟨[1], [1]⟩, "t"⟩, PyInput.intVal 3]
      = .error .typeError ∧
    TensorOp.new Add_forwardArgs "Add"
        [PyInput.tensor ⟨⟨[1], [1]⟩, "t"⟩, PyInput.intVal 3] ⟨0, []⟩
      = (⟨0 + 1, []⟩, .error .typeError)) :=
  ⟨⟨PyInput.intVal 3, by simp, rfl⟩,
    nonTensor_positional_arg_type_error Add_forwardArgs "Add"
      [PyInput.tensor ⟨⟨[1], [1]⟩, "t"⟩, PyInput.intVal 3] ⟨0, []⟩
      ⟨PyInput.intVal 3, by simp, rfl⟩⟩
